import Mathlib

/-!
Verification of the redux-midi adapter (reducer, store observation utility,
enhancer/middleware factory) against its design specification.

The JavaScript source is shallowly embedded: the reducer and the pure parts of
the middleware become Lean functions; the memoized `midiAccess` variable of
`setup` becomes an explicit state machine (`MidiAccessState`); code paths that
can throw a `TypeError` (property access on `undefined`) return `Except`.
-/

deriving instance DecidableEq for Except

namespace ReduxMidi

/-- A device descriptor as snapshotted by the input middleware: the seven
fields copied from a Web MIDI `MIDIPort`.  Also used to model the ports
themselves (only these fields are ever read). -/
structure MIDIDevice where
  id : String
  manufacturer : String
  name : String
  type : String
  version : String
  state : String
  connection : String
deriving DecidableEq, Repr

/-- A MIDI message envelope `{data, timestamp, device}`.  `timestamp` is an
`Option` because the JavaScript value may be `undefined`. -/
structure Envelope where
  data : List Nat
  timestamp : Option Nat
  device : String
deriving DecidableEq, Repr

/-- Actions of the duck.  Constructors correspond to the four defined action
type strings; `other` covers every other (unknown) action kind dispatched
through the store. -/
inductive Action where
  | receiveDeviceList (payload : List MIDIDevice)
  | setListeningDevices (payload : List String)
  | receiveMidiMessage (payload : Envelope)
  | sendMidiMessage (payload : Envelope)
  | other (type : String)
deriving DecidableEq, Repr

/-- Action type string defined via `createDuck('midi', 'redux-midi')`. -/
def RECEIVE_DEVICE_LIST : String := "redux-midi/midi/RECEIVE_DEVICE_LIST"

/-- Action type string defined via `createDuck('midi', 'redux-midi')`. -/
def SET_LISTENING_DEVICES : String := "redux-midi/midi/SET_LISTENING_DEVICES"

/-- Action type string defined via `createDuck('midi', 'redux-midi')`. -/
def RECEIVE_MIDI_MESSAGE : String := "redux-midi/midi/RECEIVE_MIDI_MESSAGE"

/-- Action type string defined via `createDuck('midi', 'redux-midi')`. -/
def SEND_MIDI_MESSAGE : String := "redux-midi/midi/SEND_MIDI_MESSAGE"

/-- The `action.type` field of each action. -/
def Action.actionType : Action → String
  | .receiveDeviceList _ => RECEIVE_DEVICE_LIST
  | .setListeningDevices _ => SET_LISTENING_DEVICES
  | .receiveMidiMessage _ => RECEIVE_MIDI_MESSAGE
  | .sendMidiMessage _ => SEND_MIDI_MESSAGE
  | .other t => t

/-- The core state slice managed by the reducer. -/
structure CoreState where
  devices : List MIDIDevice
  listeningDevices : List String
deriving DecidableEq, Repr

/-- `initialState = {devices: [], listeningDevices: []}`. -/
def initialState : CoreState := { devices := [], listeningDevices := [] }

/-- The reducer built with `myDuck.createReducer`: `RECEIVE_DEVICE_LIST`
replaces `devices`, `SET_LISTENING_DEVICES` replaces `listeningDevices`, any
other action type falls through to the identity case of `createReducer`. -/
def reducer (state : CoreState) (action : Action) : CoreState :=
  match action with
  | .receiveDeviceList payload => { state with devices := payload }
  | .setListeningDevices payload => { state with listeningDevices := payload }
  | _ => state

/-- A store run: fold the reducer over a sequence of dispatched actions. -/
def runActions (start : CoreState) (actions : List Action) : CoreState :=
  actions.foldl reducer start

/-- Payload of the most recent `RECEIVE_DEVICE_LIST` action in a sequence,
if any. -/
def lastDeviceListPayload (actions : List Action) : Option (List MIDIDevice) :=
  actions.reverse.findSome? fun a =>
    match a with
    | .receiveDeviceList payload => some payload
    | _ => none

/-- Payload of the most recent `SET_LISTENING_DEVICES` action in a sequence,
if any. -/
def lastListeningPayload (actions : List Action) : Option (List String) :=
  actions.reverse.findSome? fun a =>
    match a with
    | .setListeningDevices payload => some payload
    | _ => none

/-- The resolved MIDI access handle: `inputs` and `outputs` are the Web MIDI
port maps, keyed by `id` (modelled as lists of ports). -/
structure MIDIAccess where
  inputs : List MIDIDevice
  outputs : List MIDIDevice
deriving DecidableEq, Repr

/-- Lifecycle of the memoized `midiAccess` variable of `setup`:
`unset` — still `undefined`; `pending` — holds the in-flight promise;
`rejected` — holds that same promise after it rejected (still truthy, the
rejection continuation never overwrites it); `resolved` — holds the received
access handle (written by the fulfilment continuation). -/
inductive MidiAccessState where
  | unset
  | pending
  | rejected
  | resolved (access : MIDIAccess)
deriving DecidableEq, Repr

/-- One call of `requestMIDIAccessOnce`: if `midiAccess` is truthy it is
returned as-is (wrapped in `Promise.resolve`); only when it is still
`undefined` is the underlying `requestMIDIAccess` invoked (the Bool records
whether this call issued an underlying request) and the in-flight promise
stored. -/
def requestMIDIAccessOnce : MidiAccessState → MidiAccessState × Bool
  | .unset => (.pending, true)
  | v => (v, false)

/-- The fulfilment continuation `receivedMidiAccess => { midiAccess = receivedMidiAccess; ... }`:
it replaces the stored in-flight promise with the resolved handle. -/
def resolveAccess (access : MIDIAccess) : MidiAccessState → MidiAccessState
  | .pending => .resolved access
  | v => v

/-- Rejection of the in-flight request: no rejection handler is installed, so
the stored value is left as the (now rejected) promise. -/
def rejectAccess : MidiAccessState → MidiAccessState
  | .pending => .rejected
  | v => v

/-- `n` consecutive calls of `requestMIDIAccessOnce` with no settlement of the
underlying promise in between; returns the final stored value and how many
underlying `requestMIDIAccess` invocations were issued. -/
def runRequestCalls : MidiAccessState → Nat → MidiAccessState × Nat
  | v, 0 => (v, 0)
  | v, n + 1 =>
    let r := requestMIDIAccessOnce v
    let rest := runRequestCalls r.1 n
    (rest.1, (if r.2 then 1 else 0) + rest.2)

/-- `midiAccess.inputs.has(d)` on a resolved handle: membership in the input
port map, keyed by id. -/
def inputsHas (access : MIDIAccess) (d : String) : Bool :=
  (access.inputs.map MIDIDevice.id).contains d

/-- Evaluating `midiAccess.inputs.has(d)` against the current stored value:
on a resolved handle it is a map lookup; on `undefined` or on a (pending or
rejected) promise, `midiAccess.inputs` is not a map and the property access
throws a `TypeError`, modelled as `Except.error`. -/
def inputsHasThrowing (v : MidiAccessState) (d : String) : Except Unit Bool :=
  match v with
  | .resolved access => .ok (inputsHas access d)
  | _ => .error ()

/-- One pass of `list.filter(device => midiAccess.inputs.has(device) && p device)`
(also used, with `p := fun _ => true`, for the `for (... of ...)` loops guarded
by `if (midiAccess.inputs.has(device))`): `midiAccess.inputs.has` is evaluated
for each element in order, so the whole pass throws as soon as the list is
non-empty and the handle is not resolved. -/
def filterInputs (v : MidiAccessState) (p : String → Bool) : List String → Except Unit (List String)
  | [] => .ok []
  | d :: ds =>
    match inputsHasThrowing v d with
    | .error e => .error e
    | .ok h =>
      match filterInputs v p ds with
      | .error e => .error e
      | .ok rest => .ok (if h && p d then d :: rest else rest)

/-- Outcome of the input middleware's per-action handler: the two diff queues
it builds and the devices whose `onmidimessage` callback it actually cleared
(`unlistened`) or installed (`listened`). -/
structure HandlerOutcome where
  toUnlisten : List String
  toListen : List String
  unlistened : List String
  listened : List String
deriving DecidableEq, Repr

/-- The per-action handler of `inputMiddleware` (the `action => ...` closure).
`prevState` is the state slice read before forwarding, `state` the slice read
after; `listeningChanged` and `devicesChanged` are the results of the two
reference-inequality tests `state.listeningDevices !== prevState.listeningDevices`
and `state.devices !== prevState.devices`.  The diff over the listening sets
touches only the two states; the device-list diff and the two subscription
loops read `midiAccess.inputs` and therefore throw when the handle is not yet
resolved and they have work to do. -/
def inputHandler (v : MidiAccessState) (prevState state : CoreState)
    (listeningChanged devicesChanged : Bool) : Except Unit HandlerOutcome :=
  let toUnlisten :=
    if listeningChanged then
      prevState.listeningDevices.filter fun dev => !(state.listeningDevices.contains dev)
    else []
  let toListen1 :=
    if listeningChanged then
      state.listeningDevices.filter fun dev => !(prevState.listeningDevices.contains dev)
    else []
  match
    (if devicesChanged then
      let prevIds := prevState.devices.map MIDIDevice.id
      let nextIds := state.devices.map MIDIDevice.id
      filterInputs v (fun device => nextIds.contains device && !(prevIds.contains device))
        state.listeningDevices
    else .ok []) with
  | .error e => .error e
  | .ok toListen2 =>
    let toListen := toListen1 ++ toListen2
    match filterInputs v (fun _ => true) toUnlisten with
    | .error e => .error e
    | .ok unlistened =>
      match filterInputs v (fun _ => true) toListen with
      | .error e => .error e
      | .ok listened =>
        .ok { toUnlisten := toUnlisten, toListen := toListen,
              unlistened := unlistened, listened := listened }

/-- The `toListen` queue of a handler outcome (empty when the handler threw). -/
def toListenOf : Except Unit HandlerOutcome → List String
  | .ok o => o.toListen
  | .error _ => []

/-- The `toUnlisten` queue of a handler outcome (empty when the handler threw). -/
def toUnlistenOf : Except Unit HandlerOutcome → List String
  | .ok o => o.toUnlisten
  | .error _ => []

/-- The `onmidimessage` raw event as read by the installed callback:
the three possible timestamp fields (each possibly `undefined`) and the
payload bytes. -/
structure MIDIMessageEvent where
  receivedTime : Option Nat
  timeStamp : Option Nat
  timestamp : Option Nat
  data : List Nat
deriving DecidableEq, Repr

/-- `[receivedTime, timeStamp, timestamp].filter(x => x !== undefined)[0]`. -/
def normalizeTimestamp (e : MIDIMessageEvent) : Option Nat :=
  ([e.receivedTime, e.timeStamp, e.timestamp].filterMap id).head?

/-- The envelope dispatched by the installed `onmidimessage` callback for a
listened device. -/
def inboundEnvelope (device : String) (e : MIDIMessageEvent) : Envelope :=
  { timestamp := normalizeTimestamp e, data := e.data, device := device }

/-- The action dispatched by the installed `onmidimessage` callback:
`receiveMidiMessage({timestamp, data, device})`. -/
def onMidiMessage (device : String) (e : MIDIMessageEvent) : Action :=
  .receiveMidiMessage (inboundEnvelope device e)

/-- One `send(data, timestamp)` invocation observed on the output port map. -/
structure SendCall where
  device : String
  data : List Nat
  timestamp : Option Nat
deriving DecidableEq, Repr

/-- The `send` step of `outputMiddleware`: look the envelope's `device` up
among the known outputs; if present, invoke that output's
`send(data, timestamp)` once; otherwise do nothing. -/
def send (outputs : List MIDIDevice) (env : Envelope) : List SendCall :=
  if (outputs.map MIDIDevice.id).contains env.device then
    [{ device := env.device, data := env.data, timestamp := env.timestamp }]
  else []

/-- The side effects of `outputMiddleware` for one forwarded action, at send
time (when the access handle is `access`): only a `SEND_MIDI_MESSAGE` action
triggers the `send` step. -/
def outputMiddlewareSends (access : MIDIAccess) (action : Action) : List SendCall :=
  match action with
  | .sendMidiMessage payload => send access.outputs payload
  | _ => []

/-- The descriptor record built for one port by `sendDeviceList`. -/
def toDescriptor (device : MIDIDevice) : MIDIDevice :=
  { id := device.id, manufacturer := device.manufacturer, name := device.name,
    type := device.type, version := device.version, state := device.state,
    connection := device.connection }

/-- The device snapshot of `sendDeviceList`: all input then output ports,
mapped to descriptor records, sorted by `id` ascending (`sortBy(..., 'id')`). -/
def deviceSnapshot (access : MIDIAccess) : List MIDIDevice :=
  List.insertionSort (fun a b => a.id ≤ b.id)
    ((access.inputs ++ access.outputs).map toDescriptor)

/-- `sendDeviceList`: compute the snapshot and dispatch
`receiveDeviceList(devices)` (returned as `some`) exactly when it is not
`deepEqual` to the `devices` currently in state. -/
def sendDeviceList (access : MIDIAccess) (currentDevices : List MIDIDevice) :
    Option (List MIDIDevice) :=
  let devices := deviceSnapshot access
  if devices = currentDevices then none else some devices

/-- What `observeStore` sees of the store: the state at call time, the state
at each subsequent subscription notification, and the unsubscribe value
returned by `subscribe`. -/
structure StoreConn (S U : Type) where
  state0 : S
  notifications : List S
  unsubscribe : U

/-- The repeated `handleChange` body of `observeStore`: recompute the
selection; when it is (reference-)distinct from the last seen one, record an
`onChange(next, prev)` call and remember it.  `currentState` starts out
`undefined` (`none`). -/
def observeCalls {S T : Type} [DecidableEq T] (select : S → T) :
    Option T → List S → List (T × Option T)
  | _, [] => []
  | currentState, s :: rest =>
    let nextState := select s
    if some nextState ≠ currentState then
      (nextState, currentState) :: observeCalls select (some nextState) rest
    else
      observeCalls select currentState rest

/-- `observeStore(store, select, onChange)`: subscribe, run `handleChange`
once synchronously, then on every notification; return the underlying
unsubscribe value.  The first component lists the `onChange(next, prev)`
calls in order. -/
def observeStore {S T U : Type} [DecidableEq T] (store : StoreConn S U)
    (select : S → T) : List (T × Option T) × U :=
  (observeCalls select none (store.state0 :: store.notifications), store.unsubscribe)

/-- `midiOptions` as used by the repository (`{sysex: true}` in the README
composition); passed through verbatim to `requestMIDIAccess`. -/
structure MidiOptions where
  sysex : Option Bool
deriving DecidableEq, Repr

/-- The `requestMIDIAccess` configuration field: either the module-level
default (`navigator.requestMIDIAccess` or the rejecting stub) or a
caller-supplied function. -/
inductive RequestAccessFn where
  | platformDefault
  | custom (id : Nat)
deriving DecidableEq, Repr

/-- The config object accepted by `setup`; every field may be absent. -/
structure MidiEnhancerConfig where
  midiOptions : Option MidiOptions
  stateKey : Option String
  requestMIDIAccess : Option RequestAccessFn
deriving DecidableEq, Repr

/-- `setup({midiOptions, stateKey = 'midi', requestMIDIAccess = defaultRequestMIDIAccess})`:
the single parameter is destructured with no default object, so calling
`setup()` (argument `undefined`, modelled `none`) throws a `TypeError`; with
an object supplied, the per-field defaults are applied and the resolved
values drive the two middleware. -/
def setup (config : Option MidiEnhancerConfig) :
    Except Unit (Option MidiOptions × String × RequestAccessFn) :=
  match config with
  | none => .error ()
  | some c => .ok (c.midiOptions, c.stateKey.getD "midi", c.requestMIDIAccess.getD .platformDefault)

/-- Concrete device used in witnesses and counterexamples: only the id is
relevant. -/
def mkDevice (id : String) : MIDIDevice :=
  { id := id, manufacturer := "", name := "", type := "",
    version := "", state := "", connection := "" }

/-- The `toListen` queue built by the per-action handler when the handle is
resolved (listening-set diff followed by the device-set diff). -/
def toListenSpec (access : MIDIAccess) (prevState state : CoreState)
    (listeningChanged devicesChanged : Bool) : List String :=
  (if listeningChanged then
    state.listeningDevices.filter fun dev => !(prevState.listeningDevices.contains dev)
  else []) ++
  (if devicesChanged then
    state.listeningDevices.filter fun device =>
      inputsHas access device && ((state.devices.map MIDIDevice.id).contains device &&
        !((prevState.devices.map MIDIDevice.id).contains device))
  else [])

/-- The `toUnlisten` queue built by the per-action handler. -/
def toUnlistenSpec (prevState state : CoreState) (listeningChanged : Bool) : List String :=
  if listeningChanged then
    prevState.listeningDevices.filter fun dev => !(state.listeningDevices.contains dev)
  else []

instance {T : Type _} [DecidableEq T] : DecidableRel (@Ne T) := fun _ _ => instDecidableNot

instance : IsTotal MIDIDevice (fun d e => d.id ≤ e.id) := ⟨fun a b => le_total a.id b.id⟩

instance : IsTrans MIDIDevice (fun d e => d.id ≤ e.id) := ⟨fun _ _ _ => le_trans⟩

lemma runActions_append_singleton (s : CoreState) (as : List Action) (a : Action) :
    runActions s (as ++ [a]) = reducer (runActions s as) a := by
  simp [runActions, List.foldl_append]

lemma lastDeviceListPayload_append (as : List Action) (a : Action) :
    lastDeviceListPayload (as ++ [a]) =
      (match a with
       | .receiveDeviceList payload => some payload
       | _ => lastDeviceListPayload as) := by
  cases a <;> simp [lastDeviceListPayload]

lemma lastListeningPayload_append (as : List Action) (a : Action) :
    lastListeningPayload (as ++ [a]) =
      (match a with
       | .setListeningDevices payload => some payload
       | _ => lastListeningPayload as) := by
  cases a <;> simp [lastListeningPayload]

lemma runActions_devices (acts : List Action) (s : CoreState) :
    (runActions s acts).devices = (lastDeviceListPayload acts).getD s.devices := by
  induction acts using List.reverseRecOn generalizing s with
  | nil => simp [runActions, lastDeviceListPayload]
  | append_singleton as a ih =>
    rw [runActions_append_singleton, lastDeviceListPayload_append]
    cases a <;> simp [reducer, ih s]

lemma runActions_listeningDevices (acts : List Action) (s : CoreState) :
    (runActions s acts).listeningDevices = (lastListeningPayload acts).getD s.listeningDevices := by
  induction acts using List.reverseRecOn generalizing s with
  | nil => simp [runActions, lastListeningPayload]
  | append_singleton as a ih =>
    rw [runActions_append_singleton, lastListeningPayload_append]
    cases a <;> simp [reducer, ih s]

lemma runRequestCalls_pending (n : Nat) : runRequestCalls .pending n = (.pending, 0) := by
  induction n with
  | zero => rfl
  | succ n ih => simp [runRequestCalls, requestMIDIAccessOnce, ih]

lemma runRequestCalls_rejected (n : Nat) : runRequestCalls .rejected n = (.rejected, 0) := by
  induction n with
  | zero => rfl
  | succ n ih => simp [runRequestCalls, requestMIDIAccessOnce, ih]

lemma runRequestCalls_resolved (access : MIDIAccess) (n : Nat) :
    runRequestCalls (.resolved access) n = (.resolved access, 0) := by
  induction n with
  | zero => rfl
  | succ n ih => simp [runRequestCalls, requestMIDIAccessOnce, ih]

lemma filterInputs_resolved (access : MIDIAccess) (p : String → Bool) (l : List String) :
    filterInputs (.resolved access) p l = .ok (l.filter fun d => inputsHas access d && p d) := by
  induction l with
  | nil => rfl
  | cons d ds ih => simp [filterInputs, inputsHasThrowing, ih, List.filter_cons]

lemma inputHandler_resolved (access : MIDIAccess) (prevState state : CoreState)
    (listeningChanged devicesChanged : Bool) :
    inputHandler (.resolved access) prevState state listeningChanged devicesChanged =
      .ok { toUnlisten := toUnlistenSpec prevState state listeningChanged,
            toListen := toListenSpec access prevState state listeningChanged devicesChanged,
            unlistened := (toUnlistenSpec prevState state listeningChanged).filter
              (inputsHas access),
            listened := (toListenSpec access prevState state listeningChanged
              devicesChanged).filter (inputsHas access) } := by
  cases devicesChanged <;>
    simp [inputHandler, filterInputs_resolved, toUnlistenSpec, toListenSpec]

lemma inputHandler_noChange (v : MidiAccessState) (prevState state : CoreState) :
    inputHandler v prevState state false false =
      .ok { toUnlisten := [], toListen := [], unlistened := [], listened := [] } := rfl

lemma observeCalls_fst_some {S T : Type} [DecidableEq T] (select : S → T) (c : T) (l : List S) :
    List.destutter' Ne c (l.map select) = c :: (observeCalls select (some c) l).map Prod.fst := by
  induction l generalizing c with
  | nil => simp [observeCalls]
  | cons s rest ih =>
    by_cases h : select s = c
    · simp [observeCalls, h, List.destutter'_cons_neg, ih c]
    · rw [List.map_cons, List.destutter'_cons_pos _ (Ne.symm h)]
      simp [observeCalls, h, ih (select s)]

lemma observeCalls_zip {S T : Type} [DecidableEq T] (select : S → T) (cur : Option T)
    (l : List S) :
    observeCalls select cur l =
      ((observeCalls select cur l).map Prod.fst).zip
        (cur :: ((observeCalls select cur l).map Prod.fst).map some) := by
  induction l generalizing cur with
  | nil => simp [observeCalls]
  | cons s rest ih =>
    by_cases h : some (select s) = cur
    · simpa [observeCalls, h] using ih cur
    · simpa [observeCalls, h] using ih (some (select s))

lemma observeCalls_none_fst {S T : Type} [DecidableEq T] (select : S → T) (s : S)
    (rest : List S) :
    (observeCalls select none (s :: rest)).map Prod.fst =
      List.destutter Ne ((s :: rest).map select) := by
  rw [List.map_cons, List.destutter_cons', observeCalls_fst_some]
  simp [observeCalls]

/-- C1: the reducer returns the state with `devices` replaced by the payload
on `RECEIVE_DEVICE_LIST` (listeningDevices unchanged), `listeningDevices`
replaced on `SET_LISTENING_DEVICES` (devices unchanged), the state unchanged
on `RECEIVE_MIDI_MESSAGE`, `SEND_MIDI_MESSAGE` and every unknown action kind;
the initial state is `{devices: [], listeningDevices: []}`; and over every
sequence of dispatched actions the two fields equal the payload of the most
recent corresponding action (last-write-wins, no merging). -/
theorem C1_reducer_last_write_wins :
    (∀ s payload, reducer s (.receiveDeviceList payload) =
      { devices := payload, listeningDevices := s.listeningDevices }) ∧
    (∀ s payload, reducer s (.setListeningDevices payload) =
      { devices := s.devices, listeningDevices := payload }) ∧
    (∀ s payload, reducer s (.receiveMidiMessage payload) = s) ∧
    (∀ s payload, reducer s (.sendMidiMessage payload) = s) ∧
    (∀ s t, reducer s (.other t) = s) ∧
    initialState = { devices := [], listeningDevices := [] } ∧
    (∀ acts, (runActions initialState acts).devices = (lastDeviceListPayload acts).getD [] ∧
      (runActions initialState acts).listeningDevices = (lastListeningPayload acts).getD []) := by
  refine ⟨fun s payload => rfl, fun s payload => rfl, fun s payload => rfl,
    fun s payload => rfl, fun s t => rfl, rfl, fun acts => ⟨?_, ?_⟩⟩
  · simpa [initialState] using runActions_devices acts initialState
  · simpa [initialState] using runActions_listeningDevices acts initialState

/-- C2: a `SEND_MIDI_MESSAGE` action forwarded through `outputMiddleware`
whose device id exists among the known outputs triggers exactly one
`send(data, timestamp)` call on that output and zero calls on every other
output; an unknown device id triggers zero send calls (the `send` step is a
total function: the message is silently dropped, no error surfaces). -/
theorem C2_output_send_routing (access : MIDIAccess) (env : Envelope) :
    (env.device ∈ access.outputs.map MIDIDevice.id →
      outputMiddlewareSends access (.sendMidiMessage env) =
        [{ device := env.device, data := env.data, timestamp := env.timestamp }]) ∧
    (outputMiddlewareSends access (.sendMidiMessage env)).filter
      (fun c => c.device ≠ env.device) = [] ∧
    (env.device ∉ access.outputs.map MIDIDevice.id →
      outputMiddlewareSends access (.sendMidiMessage env) = []) := by
  by_cases h : env.device ∈ access.outputs.map MIDIDevice.id <;>
    simp [outputMiddlewareSends, send, h]

/-- C2 witness: `out1` known among two outputs receives exactly the one call
`send([0x90, 60, 127], 5)`; a `missing` device produces zero calls. -/
theorem C2_output_send_routing_witness :
    outputMiddlewareSends { inputs := [], outputs := [mkDevice "out1", mkDevice "out2"] }
        (.sendMidiMessage { data := [144, 60, 127], timestamp := some 5, device := "out1" }) =
      [{ device := "out1", data := [144, 60, 127], timestamp := some 5 }] ∧
    outputMiddlewareSends { inputs := [], outputs := [mkDevice "out1", mkDevice "out2"] }
        (.sendMidiMessage { data := [144, 60, 127], timestamp := some 5, device := "missing" }) =
      [] :=
  ⟨(C2_output_send_routing _ _).1 (by decide), (C2_output_send_routing _ _).2.2 (by decide)⟩

/-- C3: any positive number of `requestMIDIAccessOnce` calls starting from the
unrequested state, before the underlying promise settles, issues exactly one
underlying `requestAccess` invocation; a call while pending shares the stored
in-flight value and issues none; once resolved, every later call returns the
resolved handle and any number of later calls issue zero new requests. -/
theorem C3_request_access_once_idempotent :
    (∀ n, 1 ≤ n → runRequestCalls .unset n = (.pending, 1)) ∧
    requestMIDIAccessOnce .pending = (.pending, false) ∧
    (∀ access, requestMIDIAccessOnce (.resolved access) = (.resolved access, false)) ∧
    (∀ access n, runRequestCalls (.resolved access) n = (.resolved access, 0)) := by
  refine ⟨?_, rfl, fun access => rfl, runRequestCalls_resolved⟩
  intro n hn
  match n with
  | n + 1 => simp [runRequestCalls, requestMIDIAccessOnce, runRequestCalls_pending]

/-- C3 witness: two calls before resolution issue exactly one underlying
request. -/
theorem C3_request_access_once_idempotent_witness :
    runRequestCalls MidiAccessState.unset 2 = (MidiAccessState.pending, 1) :=
  C3_request_access_once_idempotent.1 2 (by decide)

/-- C4 counterexample: after the underlying promise rejects, the stored value
(`midiAccess`) still holds the rejected promise, which is truthy, so the next
`requestMIDIAccessOnce` call does NOT issue a fresh underlying request —
contradicting the claim that it does. -/
theorem C4_counterexample :
    ¬ (requestMIDIAccessOnce (rejectAccess MidiAccessState.pending)).2 = true := by decide

/-- C4 amended: if the underlying promise rejects, the stored value is never
cleared — it remains the (rejected) promise, which is truthy — so every
subsequent `requestMIDIAccessOnce` call returns that same cached rejected
promise and issues zero fresh underlying `requestAccess` invocations. -/
theorem C4_rejected_request_cached :
    ∀ n, runRequestCalls (rejectAccess MidiAccessState.pending) n =
      (MidiAccessState.rejected, 0) := by
  intro n
  simpa [rejectAccess] using runRequestCalls_rejected n

/-- C5 counterexample: with the access handle still pending, an action that
changes `listeningDevices` from `[]` to `["a"]` (a non-empty difference) makes
the per-action handler throw — `midiAccess.inputs` is `undefined` on the
in-flight promise — instead of completing. -/
theorem C5_counterexample :
    inputHandler MidiAccessState.pending initialState
      { devices := [], listeningDevices := ["a"] } true false = .error () := rfl

/-- C5 amended: the per-action handler always completes once the handle is
resolved, and completes regardless of handle readiness when neither field
changed (empty diff, no subscription work); but with an unresolved handle and
a non-empty difference it throws (see the counterexample). -/
theorem C5_handler_completeness :
    ∀ (v : MidiAccessState) (access : MIDIAccess) (prevState state : CoreState)
      (listeningChanged devicesChanged : Bool),
      (∃ outcome, inputHandler (.resolved access) prevState state
        listeningChanged devicesChanged = .ok outcome) ∧
      inputHandler v prevState state false false =
        .ok { toUnlisten := [], toListen := [], unlistened := [], listened := [] } :=
  fun v access prevState state lc dc =>
    ⟨⟨_, inputHandler_resolved access prevState state lc dc⟩,
     inputHandler_noChange v prevState state⟩

/-- C6: on a resolved handle, `toUnlisten` is exactly the previous-minus-next
difference of the listening sets when `listeningDevices` is
reference-different, and `toListen` is exactly the next-minus-previous
difference when `listeningDevices` changed, together with — when `devices` is
reference-different — every id in the new listening set that is a known input
device, present in the new device set and absent from the previous one; in
particular, with previous devices `[{id:"a"}]`, new snapshot
`[{id:"a"},{id:"b"}]` and `listeningDevices = ["b"]`, `toListen` contains
`"b"`. -/
theorem C6_listen_unlisten_diff :
    ∀ (access : MIDIAccess) (prevState state : CoreState)
      (listeningChanged devicesChanged : Bool) (x : String),
      (x ∈ toUnlistenOf (inputHandler (.resolved access) prevState state
          listeningChanged devicesChanged) ↔
        listeningChanged = true ∧ x ∈ prevState.listeningDevices ∧
          x ∉ state.listeningDevices) ∧
      (x ∈ toListenOf (inputHandler (.resolved access) prevState state
          listeningChanged devicesChanged) ↔
        ((listeningChanged = true ∧ x ∈ state.listeningDevices ∧
            x ∉ prevState.listeningDevices) ∨
         (devicesChanged = true ∧ x ∈ state.listeningDevices ∧
            x ∈ access.inputs.map MIDIDevice.id ∧
            x ∈ state.devices.map MIDIDevice.id ∧
            x ∉ prevState.devices.map MIDIDevice.id))) ∧
      "b" ∈ toListenOf (inputHandler
          (.resolved { inputs := [mkDevice "b"], outputs := [] })
          { devices := [mkDevice "a"], listeningDevices := ["b"] }
          { devices := [mkDevice "a", mkDevice "b"], listeningDevices := ["b"] }
          false true) := by
  intro access prevState state listeningChanged devicesChanged x
  rw [inputHandler_resolved]
  refine ⟨?_, ?_, by decide⟩ <;>
    cases listeningChanged <;> cases devicesChanged <;>
      simp [toListenOf, toUnlistenOf, toListenSpec, toUnlistenSpec, inputsHas,
        List.mem_filter, and_assoc]

/-- C7: the device snapshot collects all input and output devices into
descriptor records, sorted by id ascending (lexicographic String order); the
snapshot is compared by value against the state's current `devices` and
`RECEIVE_DEVICE_LIST` is dispatched with the new list if and only if the two
differ. -/
theorem C7_snapshot_sorted_dispatch_iff_changed
    (access : MIDIAccess) (currentDevices : List MIDIDevice) :
    List.Sorted (fun d e : MIDIDevice => d.id ≤ e.id) (deviceSnapshot access) ∧
    (deviceSnapshot access).Perm ((access.inputs ++ access.outputs).map toDescriptor) ∧
    (sendDeviceList access currentDevices = none ↔
      deviceSnapshot access = currentDevices) ∧
    (sendDeviceList access currentDevices = some (deviceSnapshot access) ↔
      deviceSnapshot access ≠ currentDevices) := by
  refine ⟨List.sorted_insertionSort _ _, List.perm_insertionSort _ _, ?_, ?_⟩ <;>
    by_cases h : deviceSnapshot access = currentDevices <;>
      simp [sendDeviceList, h]

/-- C8: the envelope dispatched for an inbound raw message has `timestamp`
equal to the first defined value among the event's `receivedTime`, `timeStamp`
and legacy `timestamp` fields, `data` equal to the event's payload bytes and
`device` equal to the listened device's id; an event exposing only the legacy
`timestamp` field yields exactly that value. -/
theorem C8_timestamp_normalization :
    ∀ (device : String) (e : MIDIMessageEvent),
      onMidiMessage device e = .receiveMidiMessage (inboundEnvelope device e) ∧
      (inboundEnvelope device e).timestamp = (e.receivedTime <|> e.timeStamp <|> e.timestamp) ∧
      (inboundEnvelope device e).data = e.data ∧
      (inboundEnvelope device e).device = device ∧
      (∀ t data, (inboundEnvelope device
        { receivedTime := none, timeStamp := none, timestamp := some t,
          data := data }).timestamp = some t) := by
  intro device e
  refine ⟨rfl, ?_, rfl, rfl, fun t data => rfl⟩
  obtain ⟨rt, ts, t, d⟩ := e
  cases rt <;> cases ts <;> cases t <;> rfl

/-- C9: `observeStore` recomputes the selection once synchronously at call
time and on every store notification, invokes `onChange(next, prev)` exactly
when the new selection is reference-distinct from the last seen one — the
fired values are the destuttering of the selection trace, each paired with the
previously seen selection — and returns the underlying unsubscribe value. -/
theorem C9_observe_store {S T U : Type} [DecidableEq T] (store : StoreConn S U)
    (select : S → T) :
    (observeStore store select).1 =
      (let d := List.destutter Ne ((store.state0 :: store.notifications).map select)
       d.zip (none :: d.map some)) ∧
    (observeStore store select).2 = store.unsubscribe := by
  refine ⟨?_, rfl⟩
  show observeCalls select none (store.state0 :: store.notifications) = _
  rw [observeCalls_zip, observeCalls_none_fst]

/-- C10: calling `setup` with no argument at all throws (its single parameter
is destructured with no default object), even though every individual config
field is optional: any config object — including the empty one, which yields
the defaults `stateKey = "midi"` and the platform `requestMIDIAccess` — makes
`setup` succeed. -/
theorem C10_setup_requires_argument :
    setup none = .error () ∧
    (∀ config : MidiEnhancerConfig, ∃ r, setup (some config) = .ok r) ∧
    setup (some { midiOptions := none, stateKey := none, requestMIDIAccess := none }) =
      .ok (none, "midi", .platformDefault) :=
  ⟨rfl, fun _ => ⟨_, rfl⟩, rfl⟩

end ReduxMidi
